import Mathlib

/-!
Verification of `pkg/services/accesscontrol/dualwrite/collectors.go`: the
tuple-collection and merge logic of the dual-write access-control migration.

The Go file's collectors query a relational store (excluded collaborator) and
translate rows into OpenFGA relation tuples; a mirror collector pages through
the authorization engine's read API.  The embedding below represents the
store query result as an `Except` value (error or list of scanned rows), the
two-level Go map `map[string]map[string]*TupleKey` as an association list,
and the stateful engine client as a function of the call index and request.

Helpers from the `zanzana` package (`NewTupleEntry`, `IsFolderResourceTuple`,
`MergeFolderResourceTuples`, the protobuf tuple string form and the condition
payload) are not under `src/`; they are modelled from the spec, each marked
`Modelled from the spec:`.  The translation function
`TranslateToResourceTuple` is taken as a parameter of the collector.
-/

namespace DualWrite

/-- Modelled from the spec: the subject type tag for users in the
`type:identifier` encoding (`zanzana.TypeUser` is not under `src/`). -/
def TypeUser : String := "user"

/-- Modelled from the spec: the type tag for teams
(`zanzana.TypeTeam` is not under `src/`). -/
def TypeTeam : String := "team"

/-- Modelled from the spec: the type tag for folders
(`common.TypeFolder` is not under `src/`). -/
def TypeFolder : String := "folder"

/-- Modelled from the spec: the team-admin relation name
(`zanzana.RelationTeamAdmin` is not under `src/`); the spec's example tuple
is `team:t1#team-admin@user:u1`. -/
def RelationTeamAdmin : String := "team-admin"

/-- Modelled from the spec: the team-member relation name
(`zanzana.RelationTeamMember` is not under `src/`). -/
def RelationTeamMember : String := "team-member"

/-- Modelled from the spec: the folder-parent relation name
(`zanzana.RelationParent` is not under `src/`). -/
def RelationParent : String := "parent"

/-- Modelled from the spec: a tuple condition carries a set of resource-group
identifiers the grant applies to (the openfga `RelationshipCondition` proto
with its context payload is not under `src/`). -/
structure RelationshipCondition where
  name : String
  groupResources : List String
  deriving DecidableEq

/-- The openfga `TupleKey` message: subject (`user`), relation, object and an
optional condition.  The proto definition is not under `src/`; fields follow
the spec's tuple model. -/
structure TupleKey where
  user : String
  relation : String
  object : String
  condition : Option RelationshipCondition
  deriving DecidableEq

/-- Modelled from the spec: `zanzana.NewTupleEntry` (not under `src/`) builds
the `type:identifier[#sub-relation]` encoding of a subject or object. -/
def NewTupleEntry (typ name rel : String) : String :=
  typ ++ (":") ++ name ++ (if rel = "" then ("") else ("#") ++ rel)

/-- Modelled from the spec: the deterministic full string form of a tuple,
`object#relation@subject[,condition]`, used as the dedup key (the protobuf
`String()` method is not under `src/`). -/
def TupleKey.toString (t : TupleKey) : String :=
  t.object ++ ("#") ++ t.relation ++ ("@") ++ t.user ++
    (match t.condition with
     | none => ""
     | some c =>
         (",") ++ c.name ++ ("[") ++ String.intercalate (",") c.groupResources ++ ("]"))

/-- Go's `strings.HasPrefix` on the underlying character lists (kept
executable down to the kernel). -/
def strStarts (s pre : String) : Bool := pre.data.isPrefixOf s.data

/-- Modelled from the spec: `zanzana.IsFolderResourceTuple` (not under `src/`)
recognises folder-scoped resource grants: a folder-typed object carrying a
resource-action relation. -/
def IsFolderResourceTuple (t : TupleKey) : Bool :=
  strStarts t.object (TypeFolder ++ (":")) && strStarts t.relation ("resource_")

/-- Modelled from the spec: `zanzana.MergeFolderResourceTuples` (not under
`src/`) combines two folder-scoped resource grants that differ only in their
resource-group condition into a single tuple with a unioned condition set.
In Go the first argument is mutated in place; here the merged tuple is
returned and the caller stores it back at the same key. -/
def MergeFolderResourceTuples (t extra : TupleKey) : TupleKey :=
  match t.condition, extra.condition with
  | some c, some c2 =>
      { t with condition := some { c with groupResources := c.groupResources ++ c2.groupResources } }
  | some _, none => t
  | none, some c2 => { t with condition := some c2 }
  | none, none => t

/-- `tupleStringWithoutCondition` (collectors.go:191-197): saves the tuple's
condition, clears it, takes the string form, restores the condition.  The Go
function mutates its argument and restores it before returning; the embedding
returns both the computed string and the tuple as left after the call, so the
restore step is observable. -/
def tupleStringWithoutCondition (tuple : TupleKey) : String × TupleKey :=
  let c := tuple.condition
  let stripped : TupleKey := { tuple with condition := none }
  let s := stripped.toString
  let restored : TupleKey := { stripped with condition := c }
  (s, restored)

/-! ### The two-level tuple map

Go's `map[string]map[string]*openfgav1.TupleKey` is embedded as an
association list of association lists with insert-or-replace update. -/

/-- Inner map: canonical tuple key → tuple. -/
abbrev TupleMap := List (String × TupleKey)

/-- Outer map: object → inner map. -/
abbrev ObjectTupleMap := List (String × TupleMap)

/-- Go map read `m[k]` returning the entry if present. -/
def assocLookup {α : Type} (m : List (String × α)) (k : String) : Option α :=
  match m with
  | [] => none
  | (k', v) :: rest => if k' = k then some v else assocLookup rest k

/-- Go map write `m[k] = v`: replace an existing binding or append a new one. -/
def assocInsert {α : Type} (m : List (String × α)) (k : String) (v : α) :
    List (String × α) :=
  match m with
  | [] => [(k, v)]
  | (k', v') :: rest =>
      if k' = k then (k, v) :: rest else (k', v') :: assocInsert rest k v

/-- The inner map for `obj`, the empty map when absent — Go's
`if tuples[obj] == nil { tuples[obj] = make(...) }` followed by a read. -/
def innerOf (tuples : ObjectTupleMap) (obj : String) : TupleMap :=
  (assocLookup tuples obj).getD []

/-- Go's ensure-then-write pattern
`if tuples[o] == nil { ... make ... }; tuples[o][k] = t`. -/
def storeTuple (tuples : ObjectTupleMap) (obj key : String) (t : TupleKey) :
    ObjectTupleMap :=
  assocInsert tuples obj (assocInsert (innerOf tuples obj) key t)

/-! ### teamMembershipCollector (collectors.go:14-62) -/

/-- A scanned team-membership row (`membership` struct, collectors.go:23-27). -/
structure Membership where
  teamUID : String
  userUID : String
  permission : Int
  deriving DecidableEq

/-- The tuple built from one membership row (collectors.go:41-51): subject is
the user, object is the team; level 4 is admin, anything else member. -/
def teamMembershipTuple (m : Membership) : TupleKey :=
  { user := NewTupleEntry TypeUser m.userUID ("")
    object := NewTupleEntry TypeTeam m.teamUID ("")
    relation := if m.permission = 4 then RelationTeamAdmin else RelationTeamMember
    condition := none }

/-- `teamMembershipCollector` (collectors.go:14-62).  The store query is an
excluded collaborator; its outcome (error or a list of scanned rows) is the
argument.  An error is returned as-is with no tuple map (Go's
`return nil, err`). -/
def teamMembershipCollector {ε : Type} (query : Except ε (List Membership)) :
    Except ε ObjectTupleMap :=
  match query with
  | .error e => .error e
  | .ok memberships =>
      .ok (memberships.foldl
        (fun tuples m =>
          let tuple := teamMembershipTuple m
          storeTuple tuples tuple.object tuple.toString tuple) [])

/-! ### folderTreeCollector (collectors.go:65-111) -/

/-- A scanned folder row (`folder` struct, collectors.go:73-77). -/
structure Folder where
  orgID : Int
  folderUID : String
  parentUID : String
  deriving DecidableEq

/-- The parent tuple built from one folder row (collectors.go:96-100). -/
def folderParentTuple (f : Folder) : TupleKey :=
  { object := NewTupleEntry TypeFolder f.folderUID ("")
    relation := RelationParent
    user := NewTupleEntry TypeFolder f.parentUID ("")
    condition := none }

/-- `folderTreeCollector` (collectors.go:65-111): folders with an empty
parent uid are skipped; each other folder yields one parent tuple. -/
def folderTreeCollector {ε : Type} (query : Except ε (List Folder)) :
    Except ε ObjectTupleMap :=
  match query with
  | .error e => .error e
  | .ok folders =>
      .ok (folders.foldl
        (fun tuples f =>
          if f.parentUID = "" then tuples
          else
            let tuple := folderParentTuple f
            storeTuple tuples tuple.object tuple.toString tuple) [])

/-! ### managedPermissionsCollector (collectors.go:116-189) -/

/-- A scanned managed-permission row (`Permission` struct,
collectors.go:130-138). -/
structure Permission where
  roleName : String
  orgID : Int
  action : String
  kind : String
  identifier : String
  userUID : String
  teamUID : String
  deriving DecidableEq

/-- Subject choice (collectors.go:152-160): the user identity if a user
binding exists, else the team identity with an embedded `member`
sub-relation, else none (pure org-role binding, skipped). -/
def managedSubject (p : Permission) : Option String :=
  if 0 < p.userUID.length then some (NewTupleEntry TypeUser p.userUID (""))
  else if 0 < p.teamUID.length then some (NewTupleEntry TypeTeam p.teamUID ("member"))
  else none

/-- The type of `zanzana.TranslateToResourceTuple`
(subject, action, kind, identifier → tuple or unsupported); the function
itself lives outside `src/` and is a parameter of the collector. -/
abbrev TranslateFn := String → String → String → String → Option TupleKey

/-- One iteration of the row loop of `managedPermissionsCollector`
(collectors.go:151-185): pick the subject, translate, then store — merging
folder-scoped resource grants under the condition-stripped key. -/
def managedStep (translate : TranslateFn) (tuples : ObjectTupleMap)
    (p : Permission) : ObjectTupleMap :=
  match managedSubject p with
  | none => tuples
  | some subject =>
      match translate subject p.action p.kind p.identifier with
      | none => tuples
      | some tuple =>
          if IsFolderResourceTuple tuple then
            let key := (tupleStringWithoutCondition tuple).1
            match assocLookup (innerOf tuples tuple.object) key with
            | some t => storeTuple tuples tuple.object key (MergeFolderResourceTuples t tuple)
            | none => storeTuple tuples tuple.object key tuple
          else
            storeTuple tuples tuple.object tuple.toString tuple

/-- `managedPermissionsCollector` (collectors.go:116-189), with the external
translation function as a parameter and the store query outcome as the
argument. -/
def managedPermissionsCollector {ε : Type} (translate : TranslateFn)
    (query : Except ε (List Permission)) : Except ε ObjectTupleMap :=
  match query with
  | .error e => .error e
  | .ok permissions => .ok (permissions.foldl (managedStep translate) [])

/-! ### zanzanaCollector (collectors.go:199-253)

The engine client is stateful: each `Read` call may return a different page.
It is embedded as a function of the call index and the request; the
collector threads the call index explicitly.  The request proto carries a
continuation-token field (spec §9's intended contract mentions carrying the
token back), but the code never sets it, so every request the collector
builds has an empty token.  The loop is embedded with explicit fuel:
`none` means the fuel ran out before the loop reached an empty token. -/

/-- The `ReadRequestTupleKey` proto (object and relation filters). -/
structure ReadRequestTupleKey where
  object : String
  relation : String
  deriving DecidableEq

/-- The `ReadRequest` proto.  Modelled from the spec: the request can carry a
continuation token (§9's intended pagination contract); the proto itself is
not under `src/`. -/
structure ReadRequest where
  ns : String
  tupleKey : ReadRequestTupleKey
  continuationToken : String
  deriving DecidableEq

/-- The `ReadResponse` proto: a page of tuples and a continuation token,
empty when no pages remain.  The `common.ToOpenFGATuples` conversion (not
under `src/`) is an identity re-wrapping between proto packages, so pages
carry `TupleKey` values directly. -/
structure ReadResponse where
  tuples : List TupleKey
  continuationToken : String
  deriving DecidableEq

/-- The engine client: call index and request to response or error. -/
abbrev ZClient (ε : Type) := Nat → ReadRequest → Except ε ReadResponse

/-- The request built by the collector (collectors.go:203-209 and 218-224):
namespace, object and relation only — the continuation-token field is left
at its zero value, the empty string. -/
def mkReadRequest (namespc object relation : String) : ReadRequest :=
  { ns := namespc
    tupleKey := { object := object, relation := relation }
    continuationToken := "" }

/-- The follow-up loop of `list` (collectors.go:215-231): while the token is
non-empty, issue another read of the same request, append its page and take
its token.  `i` is the next call index, `acc` the accumulated tuples, `c`
the current token.  On success the accumulated list and the next call index
are returned; `none` means the fuel ran out. -/
def listLoop {ε : Type} (client : ZClient ε) (namespc object relation : String) :
    Nat → List TupleKey → String → Nat → Option (Except ε (List TupleKey × Nat))
  | i, acc, c, fuel =>
    if c = "" then some (Except.ok (acc, i))
    else
      match fuel with
      | 0 => none
      | fuel' + 1 =>
          match client i (mkReadRequest namespc object relation) with
          | .error e => some (.error e)
          | .ok res =>
              listLoop client namespc object relation (i + 1) (acc ++ res.tuples)
                res.continuationToken fuel'

/-- `list` for one relation (collectors.go:202-234): the first read, then the
follow-up loop. -/
def listRelation {ε : Type} (client : ZClient ε) (namespc object relation : String)
    (start : Nat) (fuel : Nat) : Option (Except ε (List TupleKey × Nat)) :=
  match client start (mkReadRequest namespc object relation) with
  | .error e => some (.error e)
  | .ok first =>
      listLoop client namespc object relation (start + 1) first.tuples
        first.continuationToken fuel

/-- Insertion into the flat output map (collectors.go:242-248): folder-scoped
resource tuples are keyed by the condition-stripped string, everything else
by the full string form. -/
def outInsert (out : TupleMap) (t : TupleKey) : TupleMap :=
  if IsFolderResourceTuple t then
    assocInsert out (tupleStringWithoutCondition t).1 t
  else
    assocInsert out t.toString t

/-- The relations loop of `zanzanaCollector` (collectors.go:236-249),
threading the client call index. -/
def zanzanaCollectorAux {ε : Type} (client : ZClient ε) (object namespc : String) :
    List String → Nat → TupleMap → Nat → Option (Except ε TupleMap)
  | [], _, out, _ => some (.ok out)
  | r :: rest, i, out, fuel =>
      match listRelation client namespc object r i fuel with
      | none => none
      | some (.error e) => some (.error e)
      | some (.ok (tuples, next)) =>
          zanzanaCollectorAux client object namespc rest next
            (tuples.foldl outInsert out) fuel

/-- `zanzanaCollector` (collectors.go:199-253): for each requested relation,
page through the engine's read endpoint and deduplicate all collected tuples
into one flat map. -/
def zanzanaCollector {ε : Type} (relations : List String) (client : ZClient ε)
    (object namespc : String) (fuel : Nat) : Option (Except ε TupleMap) :=
  zanzanaCollectorAux client object namespc relations 0 [] fuel

/-! ### Helper lemmas -/

/-- Go's `len(s) > 0` test is the same as `s ≠ ""`. -/
theorem length_pos_iff_ne_empty (s : String) : 0 < s.length ↔ s ≠ "" := by
  rw [Ne, String.ext_iff]
  cases s with
  | mk data =>
      show 0 < data.length ↔ ¬(data = ("" : String).data)
      simpa using List.length_pos

/-- The follow-up loop returns the accumulator as soon as the token is
empty, whatever fuel remains. -/
theorem listLoop_done {ε : Type} (client : ZClient ε)
    (namespc object relation : String) (i : Nat) (acc : List TupleKey)
    (fuel : Nat) :
    listLoop client namespc object relation i acc ("") fuel =
      some (Except.ok (acc, i)) := by
  cases fuel <;> simp [listLoop]

/-! ### Claims -/

/-- C6: for every team-membership row, `teamMembershipCollector` emits exactly
one tuple whose subject is the user and whose object is the team; the relation
is the team-admin relation if and only if the membership permission level
equals 4, and the team-member relation for every other level.  The spec's
example row (team `t1`, user `u1`, level 4) yields the tuple
`team:t1#team-admin@user:u1`. -/
theorem teamMembershipCollector_level_to_relation {ε : Type} (m : Membership) :
    teamMembershipCollector (Except.ok [m] : Except ε (List Membership)) =
      Except.ok [((teamMembershipTuple m).object,
        [((teamMembershipTuple m).toString, teamMembershipTuple m)])] ∧
    (teamMembershipTuple m).user = NewTupleEntry TypeUser m.userUID ("") ∧
    (teamMembershipTuple m).object = NewTupleEntry TypeTeam m.teamUID ("") ∧
    ((teamMembershipTuple m).relation = RelationTeamAdmin ↔ m.permission = 4) ∧
    ((teamMembershipTuple m).relation = RelationTeamMember ↔ ¬ m.permission = 4) ∧
    (teamMembershipTuple { teamUID := ("t1"), userUID := ("u1"), permission := 4 }).toString =
      "team:t1#team-admin@user:u1" := by
  refine ⟨?_, rfl, rfl, ?_, ?_, by decide⟩
  · simp [teamMembershipCollector, storeTuple, innerOf, assocLookup, assocInsert]
  · by_cases h : m.permission = 4 <;>
      simp [teamMembershipTuple, h, RelationTeamAdmin, RelationTeamMember]
  · by_cases h : m.permission = 4 <;>
      simp [teamMembershipTuple, h, RelationTeamAdmin, RelationTeamMember]

/-- C7: a folder row with an empty parent uid produces no tuple; a folder row
with a non-empty parent uid produces exactly one tuple with the child folder
as object, relation `parent` and the parent folder as subject.  The spec's
example (folder `f2` with parent `f1`) yields `folder:f2#parent@folder:f1`. -/
theorem folderTreeCollector_parent_edges {ε : Type} (f : Folder) :
    folderTreeCollector (Except.ok [f] : Except ε (List Folder)) =
      Except.ok (if f.parentUID = "" then []
        else [((folderParentTuple f).object,
          [((folderParentTuple f).toString, folderParentTuple f)])]) ∧
    (folderParentTuple f).object = NewTupleEntry TypeFolder f.folderUID ("") ∧
    (folderParentTuple f).relation = RelationParent ∧
    (folderParentTuple f).user = NewTupleEntry TypeFolder f.parentUID ("") ∧
    (folderParentTuple { orgID := 1, folderUID := ("f2"), parentUID := ("f1") }).toString =
      "folder:f2#parent@folder:f1" := by
  refine ⟨?_, rfl, rfl, rfl, by decide⟩
  by_cases h : f.parentUID = "" <;>
    simp [folderTreeCollector, storeTuple, innerOf, assocLookup, assocInsert, h]

/-- C10: `tupleStringWithoutCondition` returns the string form of the tuple
with its condition cleared, and the tuple observable after the call equals
the original — the save/clear/restore of the condition is a no-op on the
tuple. -/
theorem tupleStringWithoutCondition_preserves_tuple (t : TupleKey) :
    (tupleStringWithoutCondition t).1 = TupleKey.toString { t with condition := none } ∧
    (tupleStringWithoutCondition t).2 = t := by
  refine ⟨rfl, ?_⟩
  cases t
  rfl

/-- C8: for every managed-permission row the subject is the user identity when
a user binding exists, otherwise the team identity with an embedded `member`
sub-relation when a team binding exists; a row with neither binding, or a row
whose translation is unsupported, yields no tuple and no error. -/
theorem managedPermissionsCollector_subject_and_skip {ε : Type}
    (translate : TranslateFn) (p : Permission) :
    (p.userUID ≠ "" → managedSubject p = some (NewTupleEntry TypeUser p.userUID (""))) ∧
    (p.userUID = "" → p.teamUID ≠ "" →
      managedSubject p = some (NewTupleEntry TypeTeam p.teamUID ("member"))) ∧
    (p.userUID = "" → p.teamUID = "" →
      managedPermissionsCollector translate (Except.ok [p] : Except ε (List Permission)) =
        Except.ok []) ∧
    (∀ s, managedSubject p = some s → translate s p.action p.kind p.identifier = none →
      managedPermissionsCollector translate (Except.ok [p] : Except ε (List Permission)) =
        Except.ok []) := by
  refine ⟨?_, ?_, ?_, ?_⟩
  · intro h
    simp [managedSubject, length_pos_iff_ne_empty, h]
  · intro h1 h2
    simp [managedSubject, length_pos_iff_ne_empty, h1, h2]
  · intro h1 h2
    simp [managedPermissionsCollector, managedStep, managedSubject,
      length_pos_iff_ne_empty, h1, h2]
  · intro s hs ht
    simp [managedPermissionsCollector, managedStep, hs, ht]

/-- Demo row with a user binding, for concrete checks. -/
def demoUserRow : Permission :=
  { roleName := ("managed:users:1:permissions"), orgID := 1,
    action := ("dashboards:read"), kind := ("dashboards"), identifier := ("d1"),
    userUID := ("u1"), teamUID := ("") }

/-- Demo row bound only to an organization role (no user or team binding). -/
def demoOrgRow : Permission := { demoUserRow with userUID := (""), teamUID := ("") }

/-- Translation stub reporting every combination unsupported. -/
def demoNoneTranslate : TranslateFn := fun _ _ _ _ => none

/-- C8 witness: at a concrete user-bound row the subject is the user entry,
and a concrete org-role-only row yields no tuple and no error. -/
theorem managedPermissionsCollector_subject_and_skip_check :
    managedSubject demoUserRow = some (NewTupleEntry TypeUser ("u1") ("")) ∧
    managedPermissionsCollector demoNoneTranslate
      (Except.ok [demoOrgRow] : Except Unit (List Permission)) = Except.ok [] :=
  ⟨(@managedPermissionsCollector_subject_and_skip Unit demoNoneTranslate demoUserRow).1
      (by decide),
   (@managedPermissionsCollector_subject_and_skip Unit demoNoneTranslate demoOrgRow).2.2.1
      rfl rfl⟩

/-- C9: an error from the legacy store query is returned as-is by each legacy
collector with no tuple mapping, and an error from any engine `Read` call —
the first call or a follow-up page — makes `zanzanaCollector` return that
error with no partial map. -/
theorem collectors_propagate_errors {ε : Type} (e : ε) (translate : TranslateFn)
    (client : ZClient ε) (namespc object r : String) (rels : List String) :
    teamMembershipCollector (Except.error e : Except ε (List Membership)) =
      Except.error e ∧
    folderTreeCollector (Except.error e : Except ε (List Folder)) = Except.error e ∧
    managedPermissionsCollector translate
      (Except.error e : Except ε (List Permission)) = Except.error e ∧
    (∀ fuel, client 0 (mkReadRequest namespc object r) = Except.error e →
      zanzanaCollector (r :: rels) client object namespc fuel =
        some (Except.error e)) ∧
    (∀ fuel res, client 0 (mkReadRequest namespc object r) = Except.ok res →
      res.continuationToken ≠ "" →
      client 1 (mkReadRequest namespc object r) = Except.error e →
      zanzanaCollector (r :: rels) client object namespc (fuel + 1) =
        some (Except.error e)) := by
  refine ⟨rfl, rfl, rfl, ?_, ?_⟩
  · intro fuel h
    simp [zanzanaCollector, zanzanaCollectorAux, listRelation, h]
  · intro fuel res h1 hne h2
    simp [zanzanaCollector, zanzanaCollectorAux, listRelation, listLoop, h1, hne, h2]

/-- Engine client failing every call with error 7. -/
def demoErrClient : ZClient Nat := fun _ _ => Except.error 7

/-- C9 witness: at a concrete failing store query and a concrete failing
client the collectors return the error and no mapping. -/
theorem collectors_propagate_errors_check :
    teamMembershipCollector (Except.error 7 : Except Nat (List Membership)) =
      Except.error 7 ∧
    zanzanaCollector [("rel")] demoErrClient ("obj") ("ns") 3 =
      some (Except.error 7) :=
  ⟨(collectors_propagate_errors 7 demoNoneTranslate demoErrClient
      ("ns") ("obj") ("rel") []).1,
   (collectors_propagate_errors 7 demoNoneTranslate demoErrClient
      ("ns") ("obj") ("rel") []).2.2.2.1 3 rfl⟩

/-- C2: with a client whose first read returns page `T1` with a non-empty
continuation token and whose second read returns page `T2` with an empty
token, `zanzanaCollector` accumulates the tuples of both pages into its
result before returning. -/
theorem zanzanaCollector_accumulates_pages {ε : Type} (client : ZClient ε)
    (namespc object r : String) (T1 T2 : ReadResponse) (fuel : Nat)
    (h1 : client 0 (mkReadRequest namespc object r) = Except.ok T1)
    (hT1 : T1.continuationToken ≠ "")
    (h2 : client 1 (mkReadRequest namespc object r) = Except.ok T2)
    (hT2 : T2.continuationToken = "") :
    zanzanaCollector [r] client object namespc (fuel + 1) =
      some (Except.ok ((T1.tuples ++ T2.tuples).foldl outInsert [])) := by
  simp [zanzanaCollector, zanzanaCollectorAux, listRelation, listLoop,
    h1, hT1, h2, hT2, listLoop_done, List.foldl_append]

/-- A two-page client: the first call answers with tuple `t` and token
`next`, every later call answers with tuple `t2` and an empty token. -/
def demoPagedClient (t t2 : TupleKey) : ZClient Unit := fun i _ =>
  if i = 0 then Except.ok { tuples := [t], continuationToken := ("next") }
  else Except.ok { tuples := [t2], continuationToken := "" }

/-- A non-folder tuple used in concrete checks. -/
def demoTeamTuple : TupleKey :=
  { user := ("user:u1"), relation := ("team-member"), object := ("team:t1"),
    condition := none }

/-- A second non-folder tuple used in concrete checks. -/
def demoTeamTuple2 : TupleKey :=
  { user := ("user:u2"), relation := ("team-member"), object := ("team:t1"),
    condition := none }

/-- C2 witness: at the concrete two-page client, both pages' tuples reach the
output map. -/
theorem zanzanaCollector_accumulates_pages_check :
    zanzanaCollector [("rel")] (demoPagedClient demoTeamTuple demoTeamTuple2)
        ("team:t1") ("ns") 1 =
      some (Except.ok (([demoTeamTuple] ++ [demoTeamTuple2]).foldl outInsert [])) :=
  zanzanaCollector_accumulates_pages (demoPagedClient demoTeamTuple demoTeamTuple2)
    ("ns") ("team:t1") ("rel")
    { tuples := [demoTeamTuple], continuationToken := ("next") }
    { tuples := [demoTeamTuple2], continuationToken := "" }
    0 rfl (by decide) rfl rfl

/-- C5: in `zanzanaCollector`'s output all collected tuples land in one flat
map; a folder-scoped resource tuple is keyed by its condition-stripped
string, so a later tuple with the same stripped key overwrites an earlier one
with no condition union, while a non-folder tuple is keyed by its full string
form. -/
theorem zanzanaCollector_dedup_last_write_wins {ε : Type} (client : ZClient ε)
    (namespc object r : String) (t1 t2 : TupleKey)
    (hfold : IsFolderResourceTuple t1 = true)
    (huser : t2.user = t1.user) (hrel : t2.relation = t1.relation)
    (hobj : t2.object = t1.object)
    (hresp : client 0 (mkReadRequest namespc object r) =
      Except.ok { tuples := [t1, t2], continuationToken := "" }) :
    zanzanaCollector [r] client object namespc 0 =
      some (Except.ok [((tupleStringWithoutCondition t1).1, t2)]) ∧
    (∀ t : TupleKey, IsFolderResourceTuple t = false →
      outInsert [] t = [(t.toString, t)]) := by
  constructor
  · have hfold2 : IsFolderResourceTuple t2 = true := by
      rw [IsFolderResourceTuple, hrel, hobj]
      exact hfold
    have hkey : (tupleStringWithoutCondition t2).1 = (tupleStringWithoutCondition t1).1 := by
      simp [tupleStringWithoutCondition, TupleKey.toString, huser, hrel, hobj]
    simp [zanzanaCollector, zanzanaCollectorAux, listRelation, listLoop, hresp,
      outInsert, hfold, hfold2, hkey, assocInsert]
  · intro t ht
    simp [outInsert, ht, assocInsert]

/-- A folder-scoped resource tuple with resource group `g`. -/
def demoFolderTuple (g : String) : TupleKey :=
  { user := ("user:u1"), relation := ("resource_dashboards:read"),
    object := ("folder:f1"),
    condition := some { name := ("group_filter"), groupResources := [g] } }

/-- One-page client returning both folder tuples at once. -/
def demoOnePageClient : ZClient Unit := fun _ _ =>
  Except.ok
    { tuples := [demoFolderTuple ("g1"), demoFolderTuple ("g2")],
      continuationToken := "" }

/-- C5 witness: at two concrete folder tuples sharing the stripped key the
later one wins with its own condition, no union. -/
theorem zanzanaCollector_dedup_last_write_wins_check :
    zanzanaCollector [("rel")] demoOnePageClient ("folder:f1") ("ns") 0 =
      some (Except.ok
        [((tupleStringWithoutCondition (demoFolderTuple ("g1"))).1,
          demoFolderTuple ("g2"))]) :=
  (zanzanaCollector_dedup_last_write_wins demoOnePageClient ("ns") ("folder:f1")
    ("rel") (demoFolderTuple ("g1")) (demoFolderTuple ("g2"))
    (by decide) rfl rfl rfl rfl).1

/-- A tuple whose subject records the continuation token a request carried —
used to make the token of the follow-up request observable in the
collector's output. -/
def echoTuple (tok : String) : TupleKey :=
  { user := tok, relation := ("echo"), object := ("obj"), condition := none }

/-- A client that reports continuation token `t1` on the first call; every
later call echoes the incoming request's continuation token via `echoTuple`
and ends pagination. -/
def echoTokenClient : ZClient Unit := fun i req =>
  if i = 0 then Except.ok { tuples := [], continuationToken := ("t1") }
  else Except.ok { tuples := [echoTuple req.continuationToken], continuationToken := "" }

/-- C3 (refuted — the code does not do this): after the first response
carried token `t1`, the follow-up read request carries the empty string, not
`t1`: the echoed subject in the output is `""`, and every request the
collector builds leaves the continuation-token field at its zero value. -/
theorem zanzanaCollector_followup_drops_token :
    zanzanaCollector [("r")] echoTokenClient ("obj") ("ns") 5 =
      some (Except.ok [((echoTuple ("")).toString, echoTuple (""))]) ∧
    (mkReadRequest ("ns") ("obj") ("r")).continuationToken = "" ∧
    "" ≠ ("t1") := by
  refine ⟨rfl, rfl, by decide⟩

/-- A condition carrying the named resource-group set `gs`. -/
def condGroups (n : String) (gs : List String) : Option RelationshipCondition :=
  some { name := n, groupResources := gs }

/-- C1: two managed-permission rows that translate to folder-scoped resource
grants with the same subject, object and relation but different resource
groups `g1` and `g2` collapse into exactly one stored tuple for that object,
keyed by the condition-stripped tuple string, whose condition carries the
combined resource-group set `{g1, g2}`. -/
theorem managedPermissionsCollector_merges_folder_grants {ε : Type}
    (translate : TranslateFn) (p1 p2 : Permission) (s1 s2 : String)
    (t1 t2 : TupleKey) (n1 n2 g1 g2 : String)
    (hs1 : managedSubject p1 = some s1)
    (ht1 : translate s1 p1.action p1.kind p1.identifier = some t1)
    (hs2 : managedSubject p2 = some s2)
    (ht2 : translate s2 p2.action p2.kind p2.identifier = some t2)
    (hfold : IsFolderResourceTuple t1 = true)
    (huser : t2.user = t1.user) (hrel : t2.relation = t1.relation)
    (hobj : t2.object = t1.object)
    (hc1 : t1.condition = condGroups n1 [g1])
    (hc2 : t2.condition = condGroups n2 [g2])
    (hg : g1 ≠ g2) :
    managedPermissionsCollector translate
        (Except.ok [p1, p2] : Except ε (List Permission)) =
      Except.ok [(t1.object,
        [((tupleStringWithoutCondition t1).1,
          { t1 with condition := condGroups n1 [g1, g2] })])] := by
  have hfold2 : IsFolderResourceTuple t2 = true := by
    rw [IsFolderResourceTuple, hrel, hobj]
    exact hfold
  have hkey : (tupleStringWithoutCondition t2).1 = (tupleStringWithoutCondition t1).1 := by
    simp [tupleStringWithoutCondition, TupleKey.toString, huser, hrel, hobj]
  simp [managedPermissionsCollector, managedStep, hs1, ht1, hs2, ht2,
    hfold, hfold2, hkey, huser, hrel, hobj, storeTuple, innerOf,
    assocLookup, assocInsert, MergeFolderResourceTuples, hc1, hc2, condGroups]

/-- Translation used in concrete checks: a folder-scoped grant on `folder:f1`
whose resource group is the row's identifier. -/
def demoMergeTranslate : TranslateFn := fun s a _ i =>
  some
    { user := s, relation := ("resource_") ++ a, object := ("folder:f1"),
      condition := some { name := ("group_filter"), groupResources := [i] } }

/-- The tuple `demoMergeTranslate` produces for `demoUserRow`. -/
def demoMergeT1 : TupleKey :=
  { user := ("user:u1"), relation := ("resource_dashboards:read"),
    object := ("folder:f1"), condition := condGroups ("group_filter") [("d1")] }

/-- The second demo row, identical to `demoUserRow` up to the identifier. -/
def demoRow2 : Permission := { demoUserRow with identifier := ("d2") }

/-- The tuple `demoMergeTranslate` produces for `demoRow2`. -/
def demoMergeT2 : TupleKey :=
  { demoMergeT1 with condition := condGroups ("group_filter") [("d2")] }

/-- C1 witness: at two concrete rows differing only in their identifier, the
collector stores one tuple for `folder:f1` whose condition set is
`{d1, d2}`. -/
theorem managedPermissionsCollector_merges_folder_grants_check :
    managedPermissionsCollector demoMergeTranslate
        (Except.ok [demoUserRow, demoRow2] : Except Unit (List Permission)) =
      Except.ok [(demoMergeT1.object,
        [((tupleStringWithoutCondition demoMergeT1).1,
          { demoMergeT1 with condition := condGroups ("group_filter") [("d1"), ("d2")] })])] :=
  managedPermissionsCollector_merges_folder_grants demoMergeTranslate
    demoUserRow demoRow2 ("user:u1") ("user:u1") demoMergeT1 demoMergeT2
    ("group_filter") ("group_filter") ("d1") ("d2")
    rfl rfl rfl rfl rfl rfl rfl rfl rfl rfl (by decide)

/-- The concatenation of the pages `f i, f (i+1), ..., f (i+k)`. -/
def pagesFrom (f : Nat → ReadResponse) (i : Nat) : Nat → List TupleKey
  | 0 => (f i).tuples
  | k + 1 => pagesFrom f i k ++ (f (i + k + 1)).tuples

/-- Peeling the first page off a page range. -/
theorem pagesFrom_shift (f : Nat → ReadResponse) (i : Nat) :
    ∀ k, pagesFrom f i (k + 1) = (f i).tuples ++ pagesFrom f (i + 1) k := by
  intro k
  induction k with
  | zero =>
      show pagesFrom f i 0 ++ (f (i + 0 + 1)).tuples = _
      simp [pagesFrom]
  | succ k ih =>
      have h : i + (k + 1) + 1 = (i + 1) + k + 1 := by omega
      calc pagesFrom f i (k + 1 + 1)
          = pagesFrom f i (k + 1) ++ (f (i + (k + 1) + 1)).tuples := rfl
        _ = ((f i).tuples ++ pagesFrom f (i + 1) k) ++ (f ((i + 1) + k + 1)).tuples := by
              rw [ih, h]
        _ = (f i).tuples ++ pagesFrom f (i + 1) (k + 1) := by
              rw [List.append_assoc]
              rfl

/-- The follow-up loop of `listRelation`, run on a client whose responses are
the pages `f`, reaches the first empty-token page and returns every page
collected on the way, given fuel past that page. -/
theorem listLoop_reaches_empty {ε : Type} (client : ZClient ε)
    (namespc object relation : String) (f : Nat → ReadResponse)
    (hresp : ∀ i : Nat,
      client i (mkReadRequest namespc object relation) = Except.ok (f i)) :
    ∀ (k i : Nat) (acc : List TupleKey) (c : String), c ≠ "" →
      (f (i + k)).continuationToken = "" →
      (∀ j, j < k → (f (i + j)).continuationToken ≠ "") →
      ∀ fuel, k < fuel →
        listLoop client namespc object relation i acc c fuel =
          some (Except.ok (acc ++ pagesFrom f i k, i + k + 1)) := by
  intro k
  induction k with
  | zero =>
      intro i acc c hc hk hmin fuel hfuel
      match fuel, hfuel with
      | fuel + 1, _ =>
        simp only [Nat.add_zero] at hk
        simp [listLoop, hc, hresp i, hk, listLoop_done, pagesFrom]
  | succ k ih =>
      intro i acc c hc hk hmin fuel hfuel
      match fuel, hfuel with
      | fuel + 1, hfuel =>
        have h0 : (f i).continuationToken ≠ "" := by
          have h := hmin 0 (Nat.succ_pos k)
          simpa using h
        have hk2 : (f ((i + 1) + k)).continuationToken = "" := by
          have h : (i + 1) + k = i + (k + 1) := by omega
          rw [h]
          exact hk
        have hmin2 : ∀ j, j < k → (f ((i + 1) + j)).continuationToken ≠ "" := by
          intro j hj
          have h : (i + 1) + j = i + (j + 1) := by omega
          rw [h]
          exact hmin (j + 1) (by omega)
        have hrec := ih (i + 1) (acc ++ (f i).tuples) ((f i).continuationToken)
          h0 hk2 hmin2 fuel (by omega)
        have hstep : listLoop client namespc object relation i acc c (fuel + 1) =
            listLoop client namespc object relation (i + 1) (acc ++ (f i).tuples)
              ((f i).continuationToken) fuel := by
          simp [listLoop, hc, hresp i]
        rw [hstep, hrec]
        have harith : (i + 1) + k + 1 = i + (k + 1) + 1 := by omega
        rw [harith, pagesFrom_shift, List.append_assoc]

/-- C4: for a client whose repeated reads of the same request eventually
yield an empty continuation token (page `k` being the first), the
per-relation pagination loop of `zanzanaCollector` terminates once the fuel
covers that page and returns the accumulated tuple list of all pages up to
it. -/
theorem listRelation_terminates_on_eventually_empty {ε : Type}
    (client : ZClient ε) (namespc object relation : String)
    (f : Nat → ReadResponse) (k : Nat)
    (hresp : ∀ i : Nat,
      client i (mkReadRequest namespc object relation) = Except.ok (f i))
    (hk : (f k).continuationToken = "")
    (hmin : ∀ j, j < k → (f j).continuationToken ≠ "")
    (fuel : Nat) (hfuel : k ≤ fuel) :
    listRelation client namespc object relation 0 fuel =
      some (Except.ok (pagesFrom f 0 k, k + 1)) := by
  simp only [listRelation, hresp 0]
  cases k with
  | zero =>
      rw [hk, listLoop_done]
      simp [pagesFrom]
  | succ k' =>
      have h0 : (f 0).continuationToken ≠ "" := hmin 0 (Nat.succ_pos k')
      have hk2 : (f (1 + k')).continuationToken = "" := by
        have h : 1 + k' = k' + 1 := by omega
        rw [h]
        exact hk
      have hmin2 : ∀ j, j < k' → (f (1 + j)).continuationToken ≠ "" := by
        intro j hj
        have h : 1 + j = j + 1 := by omega
        rw [h]
        exact hmin (j + 1) (by omega)
      have hrec := listLoop_reaches_empty client namespc object relation f hresp
        k' 1 (f 0).tuples ((f 0).continuationToken) h0 hk2 hmin2 fuel (by omega)
      rw [hrec]
      have harith : (1 : Nat) + k' + 1 = k' + 1 + 1 := by omega
      rw [harith, pagesFrom_shift]

/-- A client built from a pure page sequence: call `i` answers page `f i`
whatever the request. -/
def pureClient {ε : Type} (f : Nat → ReadResponse) : ZClient ε :=
  fun i _ => Except.ok (f i)

/-- A concrete two-page sequence: page 0 has token `more`, page 1 ends. -/
def demoTwoPages : Nat → ReadResponse := fun i =>
  if i = 0 then { tuples := [demoTeamTuple], continuationToken := ("more") }
  else { tuples := [demoTeamTuple2], continuationToken := "" }

/-- C4 witness: at the concrete two-page client the loop terminates with
both pages and the next call index. -/
theorem listRelation_terminates_check :
    listRelation (pureClient demoTwoPages : ZClient Unit) ("ns") ("obj") ("rel")
        0 9 =
      some (Except.ok (pagesFrom demoTwoPages 0 1, 2)) :=
  listRelation_terminates_on_eventually_empty (pureClient demoTwoPages)
    ("ns") ("obj") ("rel") demoTwoPages 1 (fun _ => rfl) rfl (by decide)
    9 (by omega)

end DualWrite
